import Mathlib

/-!
Verification of the seccomp filter loader and compiler of
`src/backend/src/sandbox-runtime-py/vendor/seccomp-src/`
(`apply-seccomp.c` and `seccomp-unix-block.c`).

The two C programs are shallowly embedded as pure Lean functions over an
explicit environment recording the outcome of each external call
(`open`, `read`, `prctl`, `execvp`, libseccomp calls).  Each run returns
its final outcome together with the ordered list of external calls it
issued, so that ordering and frame properties can be stated about traces.
-/

namespace SeccompSrc

/-- MAX_FILTER_SIZE from apply-seccomp.c: maximum BPF filter size in bytes. -/
def MAX_FILTER_SIZE : Nat := 4096

/-- External calls the loader issues, in program order. -/
inductive Event where
  | openFile (path : String)
  | readFile
  | closeFile
  | setNoNewPrivs
  | installFilter (len : Nat) (bytes : List Nat)
  | execCmd (cmd : String) (args : List String)
deriving DecidableEq, Repr

/-- Final outcome of a loader run: either `return code` from `main`, or the
process image was replaced by `execvp` with the given command, argument
vector, environment and open file descriptors. -/
inductive LoaderOutcome where
  | exited (code : Nat)
  | replaced (cmd : String) (args : List String)
      (environ : List (String × String)) (fds : List Nat)
deriving DecidableEq, Repr

/-- Environment of one loader run: the bytes stored in the filter file and
the success/failure of each external call.  `fileBytes` is the full content
of the file at `argv[1]`; `readErr` models `read` returning `-1`. -/
structure LoaderEnv where
  fileBytes : List Nat
  openOk : Bool
  readErr : Bool
  nnpOk : Bool
  seccompOk : Bool
  execOk : Bool
deriving DecidableEq, Repr

/-- A file descriptor not yet in the table, as returned by a successful
`open`. -/
def freshFd (fds : List Nat) : Nat := fds.foldr Nat.max 0 + 1

/-- Result of `read(fd, filter_bytes, MAX_FILTER_SIZE)`: an error, or the
first `MAX_FILTER_SIZE` bytes of the file (a longer file is silently
truncated by the bounded read; `read` reports only how many bytes it
returned). -/
def readBytes (e : LoaderEnv) : Option (List Nat) :=
  if e.readErr then none else some (e.fileBytes.take MAX_FILTER_SIZE)

/-- The `main` of apply-seccomp.c.  `argv` is the full argument vector
(`argv[0]` is the program name), `environ` the inherited environment and
`fds` the inherited open-descriptor table.  Returns the outcome and the
trace of external calls. -/
def applySeccompMain (argv : List String) (environ : List (String × String))
    (fds : List Nat) (e : LoaderEnv) : LoaderOutcome × List Event :=
  if argv.length < 3 then
    (.exited 1, [])
  else
    let filter_path := argv.getD 1 ""
    let command_argv := argv.drop 2
    if e.openOk = false then
      (.exited 1, [.openFile filter_path])
    else
      match readBytes e with
      | none =>
        (.exited 1, [.openFile filter_path, .readFile, .closeFile])
      | some bytes =>
        let filter_size := bytes.length
        if filter_size = 0 then
          (.exited 1, [.openFile filter_path, .readFile, .closeFile])
        else if filter_size % 8 ≠ 0 then
          (.exited 1, [.openFile filter_path, .readFile, .closeFile])
        else
          let filter_len := filter_size / 8
          if e.nnpOk = false then
            (.exited 1, [.openFile filter_path, .readFile, .closeFile,
              .setNoNewPrivs])
          else if e.seccompOk = false then
            (.exited 1, [.openFile filter_path, .readFile, .closeFile,
              .setNoNewPrivs, .installFilter filter_len bytes])
          else
            let tr := [.openFile filter_path, .readFile, .closeFile,
              .setNoNewPrivs, .installFilter filter_len bytes,
              .execCmd (command_argv.headD "") command_argv]
            if e.execOk then
              (.replaced (command_argv.headD "") command_argv environ
                ((fds ++ [freshFd fds]).dropLast), tr)
            else
              (.exited 1, tr)

/-- Whether an event is the seccomp filter installation call. -/
def Event.isInstall : Event → Bool
  | .installFilter _ _ => true
  | _ => false

/-- Whether an event is the no-new-privileges `prctl` call. -/
def Event.isSetNNP : Event → Bool
  | .setNoNewPrivs => true
  | _ => false

/-- Whether an event is the `execvp` call. -/
def Event.isExecCmd : Event → Bool
  | .execCmd _ _ => true
  | _ => false

/-- A loader environment in which every external call succeeds and the
filter file holds exactly one 8-byte instruction. -/
def okEnv : LoaderEnv :=
  { fileBytes := List.replicate 8 0, openOk := true, readErr := false,
    nnpOk := true, seccompOk := true, execOk := true }

/-- A sample loader invocation vector. -/
def sampleArgv : List String := ["apply-seccomp", "f.bpf", "true"]

/-- A loader environment in which everything succeeds except the final
`execvp` call. -/
def failExecEnv : LoaderEnv :=
  { fileBytes := List.replicate 8 0, openOk := true, readErr := false,
    nnpOk := true, seccompOk := true, execOk := false }

/-- A loader environment in which everything succeeds up to the filter
installation call, which fails. -/
def failSeccompEnv : LoaderEnv :=
  { fileBytes := List.replicate 8 0, openOk := true, readErr := false,
    nnpOk := true, seccompOk := false, execOk := true }

/-- A loader environment whose `read` call fails. -/
def readErrEnv : LoaderEnv :=
  { fileBytes := List.replicate 8 0, openOk := true, readErr := true,
    nnpOk := true, seccompOk := true, execOk := true }

/-- A loader environment whose filter file is 4104 bytes long: exactly one
8-byte instruction above the 4096-byte maximum, with every call
succeeding. -/
def oversizedEnv : LoaderEnv :=
  { fileBytes := List.replicate 4104 0, openOk := true, readErr := false,
    nnpOk := true, seccompOk := true, execOk := true }

/-- Trace of a run that fails at `open`. -/
def trOpen (p : String) : List Event := [.openFile p]

/-- Trace of a run that reaches the `read`/validation stage and stops there. -/
def trRead (p : String) : List Event := [.openFile p, .readFile, .closeFile]

/-- Trace of a run that reaches the no-new-privileges call. -/
def trNNP (p : String) : List Event := trRead p ++ [.setNoNewPrivs]

/-- Trace of a run that reaches the filter-installation call. -/
def trInstall (p : String) (l : Nat) (b : List Nat) : List Event :=
  trNNP p ++ [.installFilter l b]

/-- Trace of a run that reaches the `execvp` call. -/
def trFull (p : String) (l : Nat) (b : List Nat) (c : String)
    (a : List String) : List Event :=
  trInstall p l b ++ [.execCmd c a]

/-- AF_UNIX socket domain constant (Linux). -/
def AF_UNIX : Nat := 1

/-- EPERM errno constant (Linux). -/
def EPERM : Nat := 1

/-- Syscall number to which `SCMP_SYS(socket)` resolves for the build's
target instruction-set architecture (x86_64). -/
def SYS_socket : Nat := 41

/-- A libseccomp filter action: allow the syscall, or fail it with the
given errno (`SCMP_ACT_ALLOW` / `SCMP_ACT_ERRNO`). -/
inductive ScmpAction where
  | allow
  | errnoAct (err : Nat)
deriving DecidableEq, Repr

/-- Comparison operators of libseccomp argument comparisons. -/
inductive ScmpCmpOp where
  | eq
  | ne
  | lt
  | le
  | gt
  | ge
deriving DecidableEq, Repr

/-- One argument comparison, `SCMP_A<arg>(<op>, <datum>)`. -/
structure ScmpArgCmp where
  arg : Nat
  op : ScmpCmpOp
  datum : Nat
deriving DecidableEq, Repr

/-- One filter rule: match action, resolved syscall number, and argument
comparisons, all of which must hold for the rule to match. -/
structure ScmpRule where
  action : ScmpAction
  syscallNr : Nat
  cmps : List ScmpArgCmp
deriving DecidableEq, Repr

/-- A seccomp filter context: a default action plus ordered rules. -/
structure ScmpFilter where
  defaultAction : ScmpAction
  rules : List ScmpRule
deriving DecidableEq, Repr

/-- Model of `seccomp_init`: a fresh context with the given default action. -/
def seccomp_init (act : ScmpAction) : ScmpFilter := ⟨act, []⟩

/-- Model of `seccomp_rule_add`: append one rule to the context. -/
def seccomp_rule_add (ctx : ScmpFilter) (act : ScmpAction) (nr : Nat)
    (cmps : List ScmpArgCmp) : ScmpFilter :=
  ⟨ctx.defaultAction, ctx.rules ++ [⟨act, nr, cmps⟩]⟩

/-- Modelled from the spec: evaluation of one argument comparison against a
syscall's argument vector — the semantics of libseccomp's `SCMP_CMP_*`
operators, which are external library code not under src/. -/
def matchCmp (args : List Nat) (c : ScmpArgCmp) : Bool :=
  match c.op with
  | .eq => args.getD c.arg 0 == c.datum
  | .ne => args.getD c.arg 0 != c.datum
  | .lt => decide (args.getD c.arg 0 < c.datum)
  | .le => decide (args.getD c.arg 0 ≤ c.datum)
  | .gt => decide (args.getD c.arg 0 > c.datum)
  | .ge => decide (args.getD c.arg 0 ≥ c.datum)

/-- A rule matches a syscall invocation when the syscall number agrees and
every argument comparison holds. -/
def matchRule (nr : Nat) (args : List Nat) (r : ScmpRule) : Bool :=
  r.syscallNr == nr && r.cmps.all (matchCmp args)

/-- Modelled from the spec (§3 data model): the installed filter evaluates
rules in declaration order, the first matching rule's action applies, and
an unmatched syscall falls through to the default action. -/
def evalFilter (f : ScmpFilter) (nr : Nat) (args : List Nat) : ScmpAction :=
  match f.rules.find? (matchRule nr args) with
  | some r => r.action
  | none => f.defaultAction

/-- BPF opcode `BPF_LD | BPF_W | BPF_ABS` (0x20). -/
def BPF_LD_W_ABS : Nat := 32

/-- BPF opcode `BPF_JMP | BPF_JEQ | BPF_K` (0x15). -/
def BPF_JMP_JEQ_K : Nat := 21

/-- BPF opcode `BPF_JMP | BPF_JGT | BPF_K` (0x25). -/
def BPF_JMP_JGT_K : Nat := 37

/-- BPF opcode `BPF_JMP | BPF_JGE | BPF_K` (0x35). -/
def BPF_JMP_JGE_K : Nat := 53

/-- BPF opcode `BPF_RET | BPF_K` (0x06). -/
def BPF_RET_K : Nat := 6

/-- AUDIT_ARCH_X86_64 (0xc000003e). -/
def AUDIT_ARCH_X86_64 : Nat := 3221225534

/-- SECCOMP_RET_ALLOW (0x7fff0000). -/
def SECCOMP_RET_ALLOW : Nat := 2147418112

/-- SECCOMP_RET_ERRNO base (0x00050000); the low 16 bits carry the errno. -/
def SECCOMP_RET_ERRNO_BASE : Nat := 327680

/-- SECCOMP_RET_KILL (0x00000000). -/
def SECCOMP_RET_KILL : Nat := 0

/-- One classic-BPF instruction as in `struct sock_filter`. -/
structure SockFilter where
  code : Nat
  jt : Nat
  jf : Nat
  k : Nat
deriving DecidableEq, Repr

/-- The 32-bit return value encoding a filter action. -/
def actionRet : ScmpAction → Nat
  | .allow => SECCOMP_RET_ALLOW
  | .errnoAct e => SECCOMP_RET_ERRNO_BASE + e % 65536

/-- The conditional-jump instruction for one argument comparison: on a
failed comparison control skips `skip` instructions (to the end of the
rule's block). -/
def cmpJump (skip : Nat) (c : ScmpArgCmp) : SockFilter :=
  match c.op with
  | .eq => ⟨BPF_JMP_JEQ_K, 0, skip, c.datum⟩
  | .ne => ⟨BPF_JMP_JEQ_K, skip, 0, c.datum⟩
  | .gt => ⟨BPF_JMP_JGT_K, 0, skip, c.datum⟩
  | .ge => ⟨BPF_JMP_JGE_K, 0, skip, c.datum⟩
  | .lt => ⟨BPF_JMP_JGE_K, skip, 0, c.datum⟩
  | .le => ⟨BPF_JMP_JGT_K, skip, 0, c.datum⟩

/-- Modelled from the spec (§4.1 instruction emission, performed by the
external `seccomp_export_bpf`): one rule's decision-tree block — load and
compare the syscall number, then each argument comparison in order; any
failed comparison skips past the block, a full match returns the rule's
action. -/
def ruleBlock (r : ScmpRule) : List SockFilter :=
  let k := r.cmps.length
  [⟨BPF_LD_W_ABS, 0, 0, 0⟩, ⟨BPF_JMP_JEQ_K, 0, 2 * k + 1, r.syscallNr⟩] ++
  (r.cmps.enum.map (fun p =>
    [⟨BPF_LD_W_ABS, 0, 0, 16 + 8 * p.2.arg⟩,
     cmpJump (2 * k - 1 - 2 * p.1) p.2])).flatten ++
  [⟨BPF_RET_K, 0, 0, actionRet r.action⟩]

/-- Modelled from the spec (§4.1): layout of the exported program — the
architecture comparison first, then the rule blocks in declaration order,
then the default-action return. -/
def exportBPF (f : ScmpFilter) : List SockFilter :=
  [⟨BPF_LD_W_ABS, 0, 0, 4⟩, ⟨BPF_JMP_JEQ_K, 1, 0, AUDIT_ARCH_X86_64⟩,
   ⟨BPF_RET_K, 0, 0, SECCOMP_RET_KILL⟩] ++
  (f.rules.map ruleBlock).flatten ++
  [⟨BPF_RET_K, 0, 0, actionRet f.defaultAction⟩]

/-- Little-endian byte encoding of one 8-byte `sock_filter` instruction. -/
def encodeInstr (i : SockFilter) : List Nat :=
  [i.code % 256, i.code / 256 % 256, i.jt % 256, i.jf % 256,
   i.k % 256, i.k / 256 % 256, i.k / 65536 % 256, i.k / 16777216 % 256]

/-- The serialized bytes of a filter context, as written by the export
call. -/
def filterBytes (f : ScmpFilter) : List Nat :=
  ((exportBPF f).map encodeInstr).flatten

/-- The file at the output path: content bytes and permission mode. -/
structure FileArtifact where
  bytes : List Nat
  mode : Nat
deriving DecidableEq, Repr

/-- Environment of one compiler run: the success of each external call and
the state of the filesystem at the output path before the run. -/
structure CompilerEnv where
  initOk : Bool
  ruleAddOk : Bool
  openOk : Bool
  exportOk : Bool
  existing : Option FileArtifact
deriving DecidableEq, Repr

/-- Result of a compiler run: `main`'s exit code and the state of the
filesystem at the output path after the run. -/
structure CompilerResult where
  code : Nat
  fs : Option FileArtifact
deriving DecidableEq, Repr

/-- The mode 0600 (decimal 384) passed to
`open(output_file, O_CREAT | O_WRONLY | O_TRUNC, 0600)`. -/
def MODE_0600 : Nat := 384

/-- The filter context seccomp-unix-block.c builds: default allow plus the
single rule `SCMP_ACT_ERRNO(EPERM)` on `socket` with
`SCMP_A0(SCMP_CMP_EQ, AF_UNIX)`. -/
def referenceFilter : ScmpFilter :=
  seccomp_rule_add (seccomp_init .allow) (.errnoAct EPERM) SYS_socket
    [⟨0, .eq, AF_UNIX⟩]

/-- Mode of the file at the output path after a successful
`open(output_file, O_CREAT | O_WRONLY | O_TRUNC, 0600)`: a newly created
file receives the requested 0600, but when a file already exists at the
path, POSIX `open` ignores the mode argument — the file is truncated yet
keeps its prior permissions, and the program never calls `fchmod`. -/
def modeAfterOpen (env : CompilerEnv) : Nat :=
  match env.existing with
  | none => MODE_0600
  | some a => a.mode

/-- The `main` of seccomp-unix-block.c.  A successful
`open(..., O_CREAT | O_WRONLY | O_TRUNC, 0600)` truncates any pre-existing
file (keeping its prior mode) or creates an empty file with mode 0600; a
failed export leaves that truncated/created file in place; a successful
export writes the serialized context into it. -/
def seccompUnixBlockMain (argv : List String) (env : CompilerEnv) :
    CompilerResult :=
  if argv.length ≠ 2 then ⟨1, env.existing⟩
  else if env.initOk = false then ⟨1, env.existing⟩
  else
    let ctx := seccomp_init .allow
    if env.ruleAddOk = false then ⟨1, env.existing⟩
    else
      let ctx := seccomp_rule_add ctx (.errnoAct EPERM) SYS_socket
        [⟨0, .eq, AF_UNIX⟩]
      if env.openOk = false then ⟨1, env.existing⟩
      else if env.exportOk = false then ⟨1, some ⟨[], modeAfterOpen env⟩⟩
      else ⟨0, some ⟨filterBytes ctx, modeAfterOpen env⟩⟩

/-- A compiler environment in which every external call succeeds and no
file pre-exists at the output path. -/
def okCompEnv : CompilerEnv := ⟨true, true, true, true, none⟩

/-- A compiler environment in which every external call succeeds and a
stale world-readable file pre-exists at the output path. -/
def okCompEnv2 : CompilerEnv := ⟨true, true, true, true, some ⟨[7], 438⟩⟩

/-- A compiler environment whose `seccomp_rule_add` call fails, with a
pre-existing file at the output path. -/
def failRuleEnv : CompilerEnv := ⟨true, false, true, true, some ⟨[7], 438⟩⟩

/-- A sample compiler invocation vector. -/
def cArgv : List String := ["seccomp-unix-block", "out.bpf"]

/-- A second sample compiler invocation vector. -/
def cArgv2 : List String := ["seccomp-unix-block", "other.bpf"]

/-- Branch enumeration for `applySeccompMain`: every run falls into exactly
one of the eight control-flow paths of `main`, with the stated outcome and
trace. -/
theorem loader_run_cases (argv : List String) (environ : List (String × String))
    (fds : List Nat) (e : LoaderEnv) :
    (argv.length < 3 ∧ applySeccompMain argv environ fds e = (.exited 1, [])) ∨
    (3 ≤ argv.length ∧ e.openOk = false ∧
      applySeccompMain argv environ fds e = (.exited 1, trOpen (argv.getD 1 ""))) ∨
    (3 ≤ argv.length ∧ e.openOk = true ∧ e.readErr = true ∧
      applySeccompMain argv environ fds e = (.exited 1, trRead (argv.getD 1 ""))) ∨
    (3 ≤ argv.length ∧ e.openOk = true ∧ e.readErr = false ∧
      ((e.fileBytes.take MAX_FILTER_SIZE).length = 0 ∨
        (e.fileBytes.take MAX_FILTER_SIZE).length % 8 ≠ 0) ∧
      applySeccompMain argv environ fds e = (.exited 1, trRead (argv.getD 1 ""))) ∨
    (3 ≤ argv.length ∧ e.openOk = true ∧ e.readErr = false ∧
      (e.fileBytes.take MAX_FILTER_SIZE).length ≠ 0 ∧
      (e.fileBytes.take MAX_FILTER_SIZE).length % 8 = 0 ∧
      e.nnpOk = false ∧
      applySeccompMain argv environ fds e = (.exited 1, trNNP (argv.getD 1 ""))) ∨
    (3 ≤ argv.length ∧ e.openOk = true ∧ e.readErr = false ∧
      (e.fileBytes.take MAX_FILTER_SIZE).length ≠ 0 ∧
      (e.fileBytes.take MAX_FILTER_SIZE).length % 8 = 0 ∧
      e.nnpOk = true ∧ e.seccompOk = false ∧
      applySeccompMain argv environ fds e = (.exited 1,
        trInstall (argv.getD 1 "") ((e.fileBytes.take MAX_FILTER_SIZE).length / 8)
          (e.fileBytes.take MAX_FILTER_SIZE))) ∨
    (3 ≤ argv.length ∧ e.openOk = true ∧ e.readErr = false ∧
      (e.fileBytes.take MAX_FILTER_SIZE).length ≠ 0 ∧
      (e.fileBytes.take MAX_FILTER_SIZE).length % 8 = 0 ∧
      e.nnpOk = true ∧ e.seccompOk = true ∧ e.execOk = false ∧
      applySeccompMain argv environ fds e = (.exited 1,
        trFull (argv.getD 1 "") ((e.fileBytes.take MAX_FILTER_SIZE).length / 8)
          (e.fileBytes.take MAX_FILTER_SIZE) ((argv.drop 2).headD "")
          (argv.drop 2))) ∨
    (3 ≤ argv.length ∧ e.openOk = true ∧ e.readErr = false ∧
      (e.fileBytes.take MAX_FILTER_SIZE).length ≠ 0 ∧
      (e.fileBytes.take MAX_FILTER_SIZE).length % 8 = 0 ∧
      e.nnpOk = true ∧ e.seccompOk = true ∧ e.execOk = true ∧
      applySeccompMain argv environ fds e =
        (.replaced ((argv.drop 2).headD "") (argv.drop 2) environ
          ((fds ++ [freshFd fds]).dropLast),
        trFull (argv.getD 1 "") ((e.fileBytes.take MAX_FILTER_SIZE).length / 8)
          (e.fileBytes.take MAX_FILTER_SIZE) ((argv.drop 2).headD "")
          (argv.drop 2))) := by
  obtain ⟨fb, o, r, n, s, x⟩ := e
  rcases Nat.lt_or_ge argv.length 3 with h3 | h3'
  · exact Or.inl ⟨h3, by simp [applySeccompMain, h3]⟩
  · have h3 : ¬ argv.length < 3 := Nat.not_lt.mpr h3'
    cases o
    · exact Or.inr (Or.inl ⟨h3', rfl, by simp [applySeccompMain, trOpen, h3]⟩)
    · cases r
      · rcases Nat.eq_zero_or_pos (fb.take MAX_FILTER_SIZE).length with h0 | h0pos
        · exact Or.inr (Or.inr (Or.inr (Or.inl ⟨h3', rfl, rfl, Or.inl h0,
            by simp [applySeccompMain, readBytes, trRead, h3, h0]⟩)))
        · have h0 : (fb.take MAX_FILTER_SIZE).length ≠ 0 :=
            Nat.pos_iff_ne_zero.mp h0pos
          rcases Decidable.em ((fb.take MAX_FILTER_SIZE).length % 8 = 0)
            with h8 | h8
          · cases n
            · exact Or.inr (Or.inr (Or.inr (Or.inr (Or.inl
                ⟨h3', rfl, rfl, h0, h8, rfl,
                by simp_all [applySeccompMain, readBytes, trNNP, trRead]⟩))))
            · cases s
              · exact Or.inr (Or.inr (Or.inr (Or.inr (Or.inr (Or.inl
                  ⟨h3', rfl, rfl, h0, h8, rfl, rfl,
                  by simp_all [applySeccompMain, readBytes, trInstall, trNNP,
                    trRead]⟩)))))
              · cases x
                · exact Or.inr (Or.inr (Or.inr (Or.inr (Or.inr (Or.inr
                    (Or.inl ⟨h3', rfl, rfl, h0, h8, rfl, rfl, rfl,
                    by simp_all [applySeccompMain, readBytes, trFull, trInstall,
                      trNNP, trRead]⟩))))))
                · exact Or.inr (Or.inr (Or.inr (Or.inr (Or.inr (Or.inr
                    (Or.inr ⟨h3', rfl, rfl, h0, h8, rfl, rfl, rfl,
                    by simp_all [applySeccompMain, readBytes, trFull, trInstall,
                      trNNP, trRead]⟩))))))
          · exact Or.inr (Or.inr (Or.inr (Or.inl ⟨h3', rfl, rfl, Or.inr h8,
              by simp_all [applySeccompMain, readBytes, trRead]⟩)))
      · exact Or.inr (Or.inr (Or.inl ⟨h3', rfl, rfl,
          by simp [applySeccompMain, readBytes, trRead, h3]⟩))

/-- C2: the loader is fail-closed.  Every `return` from `main` carries exit
code 1, and whenever the `execvp` call is issued, the no-new-privileges and
filter-installation calls both succeeded and the installation call occurs
in the trace strictly before the `execvp` call; hence no path runs the
target command without the filter installed. -/
theorem loader_fail_closed (argv : List String) (environ : List (String × String))
    (fds : List Nat) (e : LoaderEnv) :
    (∀ c, (applySeccompMain argv environ fds e).1 = .exited c → c = 1) ∧
    ((applySeccompMain argv environ fds e).2.any Event.isExecCmd = true →
      e.nnpOk = true ∧ e.seccompOk = true ∧
      ((applySeccompMain argv environ fds e).2.takeWhile
        (fun ev => ! ev.isExecCmd)).any Event.isInstall = true) := by
  constructor
  · intro c hc
    rcases loader_run_cases argv environ fds e with
      ⟨_, hR⟩ | ⟨_, _, hR⟩ | ⟨_, _, _, hR⟩ | ⟨_, _, _, _, hR⟩ |
      ⟨_, _, _, _, _, _, hR⟩ | ⟨_, _, _, _, _, _, _, hR⟩ |
      ⟨_, _, _, _, _, _, _, _, hR⟩ | ⟨_, _, _, _, _, _, _, _, hR⟩ <;>
      rw [hR] at hc <;> simp_all
  · intro hx
    rcases loader_run_cases argv environ fds e with
      ⟨_, hR⟩ | ⟨_, _, hR⟩ | ⟨_, _, _, hR⟩ | ⟨_, _, _, _, hR⟩ |
      ⟨_, _, _, _, _, _, hR⟩ | ⟨_, _, _, _, _, hn, hs, hR⟩ |
      ⟨_, _, _, _, _, hn, hs, _, hR⟩ | ⟨_, _, _, _, _, hn, hs, _, hR⟩
    · rw [hR] at hx; simp [Event.isExecCmd] at hx
    · rw [hR] at hx; simp [trOpen, Event.isExecCmd] at hx
    · rw [hR] at hx; simp [trRead, Event.isExecCmd] at hx
    · rw [hR] at hx; simp [trRead, Event.isExecCmd] at hx
    · rw [hR] at hx; simp [trNNP, trRead, Event.isExecCmd] at hx
    · rw [hR] at hx
      simp [trInstall, trNNP, trRead, Event.isExecCmd] at hx
    · exact ⟨hn, hs, by
        rw [hR]
        simp [trFull, trInstall, trNNP, trRead, List.takeWhile,
          Event.isExecCmd, Event.isInstall]⟩
    · exact ⟨hn, hs, by
        rw [hR]
        simp [trFull, trInstall, trNNP, trRead, List.takeWhile,
          Event.isExecCmd, Event.isInstall]⟩

/-- C2 witness: a concrete run whose `execvp` fails still exits with code 1,
and its trace shows the installation call before the `execvp` call. -/
theorem loader_fail_closed_witness :
    (1 : Nat) = 1 ∧
    ((applySeccompMain sampleArgv [] [] failExecEnv).2.any
      Event.isExecCmd = true) ∧
    failExecEnv.nnpOk = true ∧
    failExecEnv.seccompOk = true ∧
    ((applySeccompMain sampleArgv [] [] failExecEnv).2.takeWhile
        (fun ev => ! ev.isExecCmd)).any Event.isInstall = true := by
  refine ⟨(loader_fail_closed sampleArgv [] [] failExecEnv).1 1 (by decide),
    by decide, ?_⟩
  have h := (loader_fail_closed sampleArgv [] [] failExecEnv).2 (by decide)
  exact ⟨h.1, h.2.1, h.2.2⟩

/-- C3: in every run whose trace contains the filter-installation call, the
no-new-privileges call was issued and succeeded, and it occurs in the trace
strictly before the installation call. -/
theorem nnp_before_install (argv : List String) (environ : List (String × String))
    (fds : List Nat) (e : LoaderEnv) :
    (applySeccompMain argv environ fds e).2.any Event.isInstall = true →
      e.nnpOk = true ∧
      ((applySeccompMain argv environ fds e).2.takeWhile
        (fun ev => ! ev.isInstall)).any Event.isSetNNP = true := by
  intro hx
  rcases loader_run_cases argv environ fds e with
    ⟨_, hR⟩ | ⟨_, _, hR⟩ | ⟨_, _, _, hR⟩ | ⟨_, _, _, _, hR⟩ |
    ⟨_, _, _, _, _, _, hR⟩ | ⟨_, _, _, _, _, hn, _, hR⟩ |
    ⟨_, _, _, _, _, hn, _, _, hR⟩ | ⟨_, _, _, _, _, hn, _, _, hR⟩
  · rw [hR] at hx; simp [Event.isInstall] at hx
  · rw [hR] at hx; simp [trOpen, Event.isInstall] at hx
  · rw [hR] at hx; simp [trRead, Event.isInstall] at hx
  · rw [hR] at hx; simp [trRead, Event.isInstall] at hx
  · rw [hR] at hx; simp [trNNP, trRead, Event.isInstall] at hx
  · exact ⟨hn, by
      rw [hR]
      simp [trInstall, trNNP, trRead, List.takeWhile,
        Event.isInstall, Event.isSetNNP]⟩
  · exact ⟨hn, by
      rw [hR]
      simp [trFull, trInstall, trNNP, trRead, List.takeWhile,
        Event.isInstall, Event.isSetNNP]⟩
  · exact ⟨hn, by
      rw [hR]
      simp [trFull, trInstall, trNNP, trRead, List.takeWhile,
        Event.isInstall, Event.isSetNNP]⟩

/-- C3 witness: a concrete run engineered to fail at installation
(`seccompOk = false`) still shows the no-new-privileges call succeeding
before the installation attempt. -/
theorem nnp_before_install_witness :
    failSeccompEnv.nnpOk = true ∧
    ((applySeccompMain sampleArgv [] [] failSeccompEnv).2.takeWhile
        (fun ev => ! ev.isInstall)).any Event.isSetNNP = true :=
  nnp_before_install sampleArgv [] [] failSeccompEnv (by decide)

/-- C8: the loader passes the execution request through unmodified.  When
the process image is replaced, the command is `argv[2]`, the argument
vector is `argv[2..]`, and the environment and open-descriptor table are
exactly the ones the loader itself inherited. -/
theorem loader_passthrough (argv : List String) (environ : List (String × String))
    (fds : List Nat) (e : LoaderEnv) (c : String) (a : List String)
    (E : List (String × String)) (F : List Nat)
    (h : (applySeccompMain argv environ fds e).1 = .replaced c a E F) :
    c = (argv.drop 2).headD "" ∧ a = argv.drop 2 ∧ E = environ ∧ F = fds := by
  rcases loader_run_cases argv environ fds e with
    ⟨_, hR⟩ | ⟨_, _, hR⟩ | ⟨_, _, _, hR⟩ | ⟨_, _, _, _, hR⟩ |
    ⟨_, _, _, _, _, _, hR⟩ | ⟨_, _, _, _, _, _, _, hR⟩ |
    ⟨_, _, _, _, _, _, _, _, hR⟩ | ⟨_, _, _, _, _, _, _, _, hR⟩
  · rw [hR] at h; simp at h
  · rw [hR] at h; simp at h
  · rw [hR] at h; simp at h
  · rw [hR] at h; simp at h
  · rw [hR] at h; simp at h
  · rw [hR] at h; simp at h
  · rw [hR] at h; simp at h
  · rw [hR] at h
    simp only [LoaderOutcome.replaced.injEq] at h
    obtain ⟨hc, ha, hE, hF⟩ := h
    exact ⟨hc.symm, ha.symm, hE.symm, hF.symm.trans List.dropLast_concat⟩

/-- C8 witness: a concrete successful run hands `execvp` exactly the
command and arguments from the loader invocation surface, with environment
and descriptors unchanged. -/
theorem loader_passthrough_witness :
    (applySeccompMain sampleArgv [("PATH", "/bin")] [0, 1, 2] okEnv).1 =
      .replaced "true" ["true"] [("PATH", "/bin")] [0, 1, 2] ∧
    ("true" = (sampleArgv.drop 2).headD "" ∧ "true" :: [] = sampleArgv.drop 2 ∧
      [("PATH", "/bin")] = [("PATH", "/bin")] ∧
      ([0, 1, 2] : List Nat) = [0, 1, 2]) :=
  ⟨by decide, loader_passthrough sampleArgv [("PATH", "/bin")] [0, 1, 2] okEnv
    "true" ["true"] [("PATH", "/bin")] [0, 1, 2] (by decide)⟩

/-- C9: on any failure up to and including validation (bad argument count,
open failure, read failure, empty or non-multiple-of-8 read), the loader
exits with code 1 and its trace contains neither the no-new-privileges call
nor the installation call: the privilege state is untouched. -/
theorem early_failure_no_privilege_change (argv : List String)
    (environ : List (String × String)) (fds : List Nat) (e : LoaderEnv)
    (h : argv.length < 3 ∨ e.openOk = false ∨ e.readErr = true ∨
      (e.fileBytes.take MAX_FILTER_SIZE).length = 0 ∨
      (e.fileBytes.take MAX_FILTER_SIZE).length % 8 ≠ 0) :
    (applySeccompMain argv environ fds e).1 = .exited 1 ∧
    (applySeccompMain argv environ fds e).2.any Event.isSetNNP = false ∧
    (applySeccompMain argv environ fds e).2.any Event.isInstall = false := by
  rcases loader_run_cases argv environ fds e with
    ⟨_, hR⟩ | ⟨_, _, hR⟩ | ⟨_, _, _, hR⟩ | ⟨_, _, _, _, hR⟩ |
    ⟨h3, ho, hr, h0, h8, _, hR⟩ | ⟨h3, ho, hr, h0, h8, _, _, hR⟩ |
    ⟨h3, ho, hr, h0, h8, _, _, _, hR⟩ | ⟨h3, ho, hr, h0, h8, _, _, _, hR⟩
  · rw [hR]; simp [Event.isSetNNP, Event.isInstall]
  · rw [hR]; simp [trOpen, Event.isSetNNP, Event.isInstall]
  · rw [hR]; simp [trRead, Event.isSetNNP, Event.isInstall]
  · rw [hR]; simp [trRead, Event.isSetNNP, Event.isInstall]
  all_goals {
    exfalso
    rcases h with h | h | h | h | h
    · omega
    · rw [ho] at h; cases h
    · rw [hr] at h; cases h
    · exact h0 h
    · exact h h8 }

/-- C9 witness: a concrete run whose `read` fails exits with code 1 without
issuing the no-new-privileges or installation calls. -/
theorem early_failure_no_privilege_change_witness :
    (readErrEnv.readErr = true) ∧
    ((applySeccompMain sampleArgv [] [] readErrEnv).1 = .exited 1 ∧
    (applySeccompMain sampleArgv [] [] readErrEnv).2.any
      Event.isSetNNP = false ∧
    (applySeccompMain sampleArgv [] [] readErrEnv).2.any
      Event.isInstall = false) :=
  ⟨by decide, early_failure_no_privilege_change sampleArgv [] [] readErrEnv
    (Or.inr (Or.inr (Or.inl (by decide))))⟩

/-- C10: whatever the input file, the bounded `read` returns at most 4096
bytes, so any installation call in any run carries an instruction count of
at most 512, which is unchanged by reduction modulo 2^16: the narrowing to
the 16-bit `len` field of `sock_fprog` never wraps. -/
theorem filter_len_no_overflow (argv : List String)
    (environ : List (String × String)) (fds : List Nat) (e : LoaderEnv)
    (l : Nat) (b : List Nat)
    (h : Event.installFilter l b ∈ (applySeccompMain argv environ fds e).2) :
    b.length ≤ MAX_FILTER_SIZE ∧ l = b.length / 8 ∧ l ≤ 512 ∧
    l % 2 ^ 16 = l := by
  have hl : b.length ≤ MAX_FILTER_SIZE ∧ l = b.length / 8 := by
    rcases loader_run_cases argv environ fds e with
      ⟨_, hR⟩ | ⟨_, _, hR⟩ | ⟨_, _, _, hR⟩ | ⟨_, _, _, _, hR⟩ |
      ⟨_, _, _, _, _, _, hR⟩ | ⟨_, _, _, _, _, _, _, hR⟩ |
      ⟨_, _, _, _, _, _, _, _, hR⟩ | ⟨_, _, _, _, _, _, _, _, hR⟩ <;>
      rw [hR] at h <;>
      simp [trOpen, trRead, trNNP, trInstall, trFull] at h <;>
      obtain ⟨h1, h2⟩ := h <;> subst h2 <;>
      exact ⟨List.length_take_le _ _, by rw [List.length_take]; exact h1⟩
  refine ⟨hl.1, hl.2, ?_, ?_⟩
  · have : b.length / 8 ≤ MAX_FILTER_SIZE / 8 :=
      Nat.div_le_div_right hl.1
    rw [hl.2]
    simpa [MAX_FILTER_SIZE] using this
  · have h512 : l ≤ 512 := by
      have : b.length / 8 ≤ MAX_FILTER_SIZE / 8 :=
        Nat.div_le_div_right hl.1
      rw [hl.2]
      simpa [MAX_FILTER_SIZE] using this
    exact Nat.mod_eq_of_lt (lt_of_le_of_lt h512 (by norm_num))

/-- C10 witness: the concrete all-success run installs one instruction
(8 bytes), and the bounds hold for it. -/
theorem filter_len_no_overflow_witness :
    (Event.installFilter 1 (List.replicate 8 0) ∈
      (applySeccompMain sampleArgv [] [] okEnv).2) ∧
    ((List.replicate 8 (0 : Nat)).length ≤ MAX_FILTER_SIZE ∧
      1 = (List.replicate 8 (0 : Nat)).length / 8 ∧ (1 : Nat) ≤ 512 ∧
      1 % 2 ^ 16 = 1) :=
  ⟨by decide, filter_len_no_overflow sampleArgv [] [] okEnv 1
    (List.replicate 8 0) (by decide)⟩

/-- Branch enumeration for `seccompUnixBlockMain`: every run falls into
exactly one of the six control-flow paths of `main`, with the stated exit
code and filesystem outcome. -/
theorem compiler_run_cases (argv : List String) (env : CompilerEnv) :
    (argv.length ≠ 2 ∧ seccompUnixBlockMain argv env = ⟨1, env.existing⟩) ∨
    (argv.length = 2 ∧ env.initOk = false ∧
      seccompUnixBlockMain argv env = ⟨1, env.existing⟩) ∨
    (argv.length = 2 ∧ env.initOk = true ∧ env.ruleAddOk = false ∧
      seccompUnixBlockMain argv env = ⟨1, env.existing⟩) ∨
    (argv.length = 2 ∧ env.initOk = true ∧ env.ruleAddOk = true ∧
      env.openOk = false ∧
      seccompUnixBlockMain argv env = ⟨1, env.existing⟩) ∨
    (argv.length = 2 ∧ env.initOk = true ∧ env.ruleAddOk = true ∧
      env.openOk = true ∧ env.exportOk = false ∧
      seccompUnixBlockMain argv env = ⟨1, some ⟨[], modeAfterOpen env⟩⟩) ∨
    (argv.length = 2 ∧ env.initOk = true ∧ env.ruleAddOk = true ∧
      env.openOk = true ∧ env.exportOk = true ∧
      seccompUnixBlockMain argv env =
        ⟨0, some ⟨filterBytes referenceFilter, modeAfterOpen env⟩⟩) := by
  obtain ⟨i, ra, o, ex, fs0⟩ := env
  rcases Decidable.em (argv.length = 2) with h2 | h2
  · cases i
    · exact Or.inr (Or.inl ⟨h2, rfl,
        by simp [seccompUnixBlockMain, h2]⟩)
    · cases ra
      · exact Or.inr (Or.inr (Or.inl ⟨h2, rfl, rfl,
          by simp [seccompUnixBlockMain, h2]⟩))
      · cases o
        · exact Or.inr (Or.inr (Or.inr (Or.inl ⟨h2, rfl, rfl, rfl,
            by simp [seccompUnixBlockMain, h2]⟩)))
        · cases ex
          · exact Or.inr (Or.inr (Or.inr (Or.inr (Or.inl
              ⟨h2, rfl, rfl, rfl, rfl,
              by simp [seccompUnixBlockMain, h2]⟩))))
          · exact Or.inr (Or.inr (Or.inr (Or.inr (Or.inr
              ⟨h2, rfl, rfl, rfl, rfl,
              by simp [seccompUnixBlockMain, referenceFilter, h2]⟩))))
  · exact Or.inl ⟨h2, by simp [seccompUnixBlockMain, h2]⟩

/-- Helper: every successful compiler run leaves the serialized reference
context, with mode 0600, at the output path. -/
theorem compiler_success_fs (argv : List String) (env : CompilerEnv)
    (h : (seccompUnixBlockMain argv env).code = 0) :
    (seccompUnixBlockMain argv env).fs =
      some ⟨filterBytes referenceFilter, modeAfterOpen env⟩ := by
  rcases compiler_run_cases argv env with
    ⟨_, hR⟩ | ⟨_, _, hR⟩ | ⟨_, _, _, hR⟩ | ⟨_, _, _, _, hR⟩ |
    ⟨_, _, _, _, _, hR⟩ | ⟨_, _, _, _, _, hR⟩ <;>
    rw [hR] at h ⊢ <;> simp_all

/-- C4: every successful compiler run emits exactly the fixed reference
policy: serialized reference context on disk; default action allow; a
single rule failing `socket` with EPERM when argument 0 equals AF_UNIX;
`socket` allowed for every other domain value; every other syscall
allowed. -/
theorem compiler_reference_policy (argv : List String) (env : CompilerEnv)
    (args : List Nat) (nr : Nat)
    (h : (seccompUnixBlockMain argv env).code = 0) :
    (seccompUnixBlockMain argv env).fs =
      some ⟨filterBytes referenceFilter, modeAfterOpen env⟩ ∧
    referenceFilter.defaultAction = .allow ∧
    referenceFilter.rules =
      [⟨.errnoAct EPERM, SYS_socket, [⟨0, .eq, AF_UNIX⟩]⟩] ∧
    evalFilter referenceFilter SYS_socket args =
      (if args.getD 0 0 = AF_UNIX then .errnoAct EPERM else .allow) ∧
    (nr ≠ SYS_socket → evalFilter referenceFilter nr args = .allow) := by
  refine ⟨compiler_success_fs argv env h, rfl, rfl, ?_, ?_⟩
  · clear h
    by_cases ha : args.getD 0 0 = AF_UNIX
    · have hb : (args.getD 0 0 == AF_UNIX) = true := beq_iff_eq.mpr ha
      simp [evalFilter, matchRule, matchCmp, referenceFilter,
        seccomp_rule_add, seccomp_init, List.find?, hb, ha,
        -List.getD_eq_getElem?_getD]
    · have hb : (args.getD 0 0 == AF_UNIX) = false :=
        beq_eq_false_iff_ne.mpr ha
      simp [evalFilter, matchRule, matchCmp, referenceFilter,
        seccomp_rule_add, seccomp_init, List.find?, hb, ha,
        -List.getD_eq_getElem?_getD]
  · intro hnr
    clear h
    have hb : (SYS_socket == nr) = false :=
      beq_eq_false_iff_ne.mpr (fun hh => hnr hh.symm)
    simp [evalFilter, matchRule, matchCmp, referenceFilter,
      seccomp_rule_add, seccomp_init, List.find?, hb,
      -List.getD_eq_getElem?_getD]

/-- C4 witness: a concrete successful run, evaluated at a Unix-domain
`socket` call and at an unrelated syscall number. -/
theorem compiler_reference_policy_witness :
    (seccompUnixBlockMain cArgv okCompEnv).code = 0 ∧
    ((seccompUnixBlockMain cArgv okCompEnv).fs =
        some ⟨filterBytes referenceFilter, modeAfterOpen okCompEnv⟩ ∧
      referenceFilter.defaultAction = .allow ∧
      referenceFilter.rules =
        [⟨.errnoAct EPERM, SYS_socket, [⟨0, .eq, AF_UNIX⟩]⟩] ∧
      evalFilter referenceFilter SYS_socket [1, 1, 0] =
        (if [1, 1, 0].getD 0 0 = AF_UNIX then ScmpAction.errnoAct EPERM
          else .allow) ∧
      ((39 : Nat) ≠ SYS_socket →
        evalFilter referenceFilter 39 [1, 1, 0] = .allow)) :=
  ⟨by decide, compiler_reference_policy cArgv okCompEnv [1, 1, 0] 39
    (by decide)⟩

/-- C5 counterexample: a successful run over a pre-existing world-readable
file (mode 0666 = 438) leaves that file's prior mode in place, not 0600 —
the mode argument of `open` applies only at creation and the compiler
never calls `fchmod`. -/
theorem compiler_mode_preexisting :
    okCompEnv2.existing = some ⟨[7], 438⟩ ∧
    (seccompUnixBlockMain cArgv okCompEnv2).code = 0 ∧
    (seccompUnixBlockMain cArgv okCompEnv2).fs =
      some ⟨filterBytes referenceFilter, 438⟩ ∧
    (438 : Nat) ≠ MODE_0600 := by
  refine ⟨rfl, by decide, ?_, by decide⟩
  exact compiler_success_fs cArgv okCompEnv2 (by decide)

/-- C5 (amended): every successful compiler run leaves the serialized
reference context at the output path with the mode `open` yields — 0600
(owner read/write, no permission bits for group or other) when the run
created the file fresh, but the pre-existing file's prior mode when one
was already at the path, since `open`'s 0600 applies only at creation and
the compiler never calls `fchmod`. -/
theorem compiler_output_mode (argv : List String) (env : CompilerEnv)
    (a : FileArtifact) (h : (seccompUnixBlockMain argv env).code = 0) :
    (seccompUnixBlockMain argv env).fs =
      some ⟨filterBytes referenceFilter, modeAfterOpen env⟩ ∧
    (env.existing = none → modeAfterOpen env = MODE_0600 ∧
      MODE_0600 / 64 % 8 = 6 ∧ MODE_0600 / 8 % 8 = 0 ∧ MODE_0600 % 8 = 0) ∧
    (env.existing = some a → modeAfterOpen env = a.mode) := by
  refine ⟨compiler_success_fs argv env h, fun hn => ?_, fun ha => ?_⟩
  · exact ⟨by simp [modeAfterOpen, hn], by decide, by decide, by decide⟩
  · simp [modeAfterOpen, ha]

/-- C5 amended witness: the concrete fresh-path successful run, whose
artifact mode is 0600 with the owner-only decomposition. -/
theorem compiler_output_mode_witness :
    (seccompUnixBlockMain cArgv okCompEnv).code = 0 ∧
    ((seccompUnixBlockMain cArgv okCompEnv).fs =
        some ⟨filterBytes referenceFilter, modeAfterOpen okCompEnv⟩ ∧
    (okCompEnv.existing = none → modeAfterOpen okCompEnv = MODE_0600 ∧
      MODE_0600 / 64 % 8 = 6 ∧ MODE_0600 / 8 % 8 = 0 ∧ MODE_0600 % 8 = 0) ∧
    (okCompEnv.existing = some ⟨[7], 438⟩ →
      modeAfterOpen okCompEnv = (438 : Nat))) :=
  ⟨by decide, compiler_output_mode cArgv okCompEnv ⟨[7], 438⟩ (by decide)⟩

/-- C6: if context initialization or rule construction fails, the compiler
exits with code 1 and the filesystem at the output path is exactly what it
was before the run — the output file is only created after all rules have
been added. -/
theorem compiler_early_failure_no_file (argv : List String)
    (env : CompilerEnv)
    (h : env.initOk = false ∨ env.ruleAddOk = false) :
    (seccompUnixBlockMain argv env).code = 1 ∧
    (seccompUnixBlockMain argv env).fs = env.existing := by
  rcases compiler_run_cases argv env with
    ⟨_, hR⟩ | ⟨_, _, hR⟩ | ⟨_, _, _, hR⟩ | ⟨_, _, _, _, hR⟩ |
    ⟨_, hi, hra, _, _, hR⟩ | ⟨_, hi, hra, _, _, hR⟩
  · rw [hR]; exact ⟨rfl, rfl⟩
  · rw [hR]; exact ⟨rfl, rfl⟩
  · rw [hR]; exact ⟨rfl, rfl⟩
  · rw [hR]; exact ⟨rfl, rfl⟩
  all_goals {
    exfalso
    rcases h with h | h
    · rw [hi] at h; cases h
    · rw [hra] at h; cases h }

/-- C6 witness: a concrete run whose rule construction fails exits with
code 1 and leaves the pre-existing file untouched. -/
theorem compiler_early_failure_no_file_witness :
    (failRuleEnv.initOk = false ∨ failRuleEnv.ruleAddOk = false) ∧
    ((seccompUnixBlockMain cArgv failRuleEnv).code = 1 ∧
      (seccompUnixBlockMain cArgv failRuleEnv).fs = failRuleEnv.existing) :=
  ⟨Or.inr (by decide), compiler_early_failure_no_file cArgv failRuleEnv
    (Or.inr (by decide))⟩

/-- C7 counterexample: two successful runs whose artifacts are NOT
identical — a fresh-path run yields mode 0600 while a run over a
pre-existing mode-0666 file keeps 0666, so the permissions differ even
though the content bytes coincide. -/
theorem compiler_permissions_differ :
    (seccompUnixBlockMain cArgv okCompEnv).code = 0 ∧
    (seccompUnixBlockMain cArgv2 okCompEnv2).code = 0 ∧
    (seccompUnixBlockMain cArgv okCompEnv).fs =
      some ⟨filterBytes referenceFilter, MODE_0600⟩ ∧
    (seccompUnixBlockMain cArgv2 okCompEnv2).fs =
      some ⟨filterBytes referenceFilter, 438⟩ ∧
    (MODE_0600 : Nat) ≠ 438 := by
  refine ⟨by decide, by decide, ?_, ?_, by decide⟩
  · exact compiler_success_fs cArgv okCompEnv (by decide)
  · exact compiler_success_fs cArgv2 okCompEnv2 (by decide)

/-- C7 (amended): emission is deterministic — any two successful runs
write byte-identical content, the serialized reference context — and two
successful runs that both create their output file fresh also leave
identical permissions (0600); but a run over a pre-existing file keeps
that file's prior mode, so permissions need not agree across arbitrary
successful runs. -/
theorem compiler_deterministic (a1 a2 : List String) (e1 e2 : CompilerEnv)
    (h1 : (seccompUnixBlockMain a1 e1).code = 0)
    (h2 : (seccompUnixBlockMain a2 e2).code = 0) :
    (seccompUnixBlockMain a1 e1).fs =
      some ⟨filterBytes referenceFilter, modeAfterOpen e1⟩ ∧
    (seccompUnixBlockMain a2 e2).fs =
      some ⟨filterBytes referenceFilter, modeAfterOpen e2⟩ ∧
    (e1.existing = none → e2.existing = none →
      (seccompUnixBlockMain a1 e1).fs = (seccompUnixBlockMain a2 e2).fs) := by
  have k1 := compiler_success_fs a1 e1 h1
  have k2 := compiler_success_fs a2 e2 h2
  refine ⟨k1, k2, fun hn1 hn2 => ?_⟩
  rw [k1, k2]
  simp [modeAfterOpen, hn1, hn2]

/-- C7 amended witness: two concrete fresh-path successful runs with
different output paths produce identical artifacts. -/
theorem compiler_deterministic_witness :
    (seccompUnixBlockMain cArgv okCompEnv).code = 0 ∧
    (seccompUnixBlockMain cArgv2 okCompEnv).code = 0 ∧
    ((seccompUnixBlockMain cArgv okCompEnv).fs =
      some ⟨filterBytes referenceFilter, modeAfterOpen okCompEnv⟩ ∧
    (seccompUnixBlockMain cArgv2 okCompEnv).fs =
      some ⟨filterBytes referenceFilter, modeAfterOpen okCompEnv⟩ ∧
    (okCompEnv.existing = none → okCompEnv.existing = none →
      (seccompUnixBlockMain cArgv okCompEnv).fs =
        (seccompUnixBlockMain cArgv2 okCompEnv).fs)) :=
  ⟨by decide, by decide,
    compiler_deterministic cArgv cArgv2 okCompEnv okCompEnv
      (by decide) (by decide)⟩

/-- The concrete run of the loader on the oversized 4104-byte file: the
bounded read truncates it to its first 4096 bytes and the run proceeds. -/
theorem loader_oversized_run :
    applySeccompMain sampleArgv [] [] oversizedEnv =
      (.replaced "true" ["true"] [] [],
       trFull "f.bpf" 512 (List.replicate 4096 0) "true" ["true"]) := by
  have htake : oversizedEnv.fileBytes.take MAX_FILTER_SIZE =
      List.replicate 4096 0 := by
    show (List.replicate 4104 (0 : Nat)).take 4096 = List.replicate 4096 0
    rw [List.take_replicate]
    norm_num
  rcases loader_run_cases sampleArgv [] [] oversizedEnv with
    ⟨h, _⟩ | ⟨_, h, _⟩ | ⟨_, _, h, _⟩ | ⟨_, _, _, h, _⟩ |
    ⟨_, _, _, _, _, h, _⟩ | ⟨_, _, _, _, _, _, h, _⟩ |
    ⟨_, _, _, _, _, _, _, h, _⟩ | ⟨_, _, _, _, _, _, _, _, hR⟩
  · exact absurd h (by decide)
  · exact absurd h (by decide)
  · exact absurd h (by decide)
  · rw [htake, List.length_replicate] at h
    rcases h with h | h
    · exact absurd h (by norm_num)
    · exact absurd (by norm_num) h
  · exact absurd h (by decide)
  · exact absurd h (by decide)
  · exact absurd h (by decide)
  · rw [hR, htake, List.length_replicate]
    generalize List.replicate 4096 (0 : Nat) = R
    simp [sampleArgv, freshFd]

/-- C1 counterexample: a program exactly one instruction-width unit (8
bytes) above the 4096-byte maximum is not rejected.  The loader truncates
it to its first 4096 bytes (a multiple of 8), installs the truncated
program and execs the target — contradicting the claim that such an input
exits with code 1 with no installation attempted. -/
theorem loader_oversized_truncated_not_rejected :
    oversizedEnv.fileBytes.length = MAX_FILTER_SIZE + 8 ∧
    (applySeccompMain sampleArgv [] [] oversizedEnv).1 ≠ .exited 1 ∧
    (applySeccompMain sampleArgv [] [] oversizedEnv).2.any
      Event.isInstall = true ∧
    (applySeccompMain sampleArgv [] [] oversizedEnv).2.any
      Event.isExecCmd = true := by
  refine ⟨by rw [show oversizedEnv.fileBytes = List.replicate 4104 0 from rfl,
    List.length_replicate]; rfl, ?_, ?_, ?_⟩
  · rw [loader_oversized_run]
    generalize List.replicate 4096 (0 : Nat) = R
    simp
  · rw [loader_oversized_run]
    generalize List.replicate 4096 (0 : Nat) = R
    simp [trFull, trInstall, trNNP, trRead, Event.isInstall]
  · rw [loader_oversized_run]
    generalize List.replicate 4096 (0 : Nat) = R
    simp [trFull, trInstall, trNNP, trRead, Event.isExecCmd]

/-- C1 (amended): once the loader has opened and read the file, validation
is decided by the byte count the bounded read returns — the first at most
4096 bytes of the file.  The run proceeds past validation exactly when
that count is positive and a multiple of 8, and otherwise exits with code
1 with no installation attempted; the count never exceeds 4096, and for a
file of 4096 bytes or more it is exactly 4096 — an oversized program is
silently truncated to the maximum, not rejected. -/
theorem loader_validation_truncating (argv : List String)
    (environ : List (String × String)) (fds : List Nat) (e : LoaderEnv)
    (h3 : 3 ≤ argv.length) (ho : e.openOk = true) (hr : e.readErr = false) :
    ((applySeccompMain argv environ fds e).2.any Event.isSetNNP = true ↔
      (0 < (e.fileBytes.take MAX_FILTER_SIZE).length ∧
        (e.fileBytes.take MAX_FILTER_SIZE).length % 8 = 0)) ∧
    (((e.fileBytes.take MAX_FILTER_SIZE).length = 0 ∨
        (e.fileBytes.take MAX_FILTER_SIZE).length % 8 ≠ 0) →
      ((applySeccompMain argv environ fds e).1 = .exited 1 ∧
        (applySeccompMain argv environ fds e).2.any
          Event.isInstall = false)) ∧
    (e.fileBytes.take MAX_FILTER_SIZE).length ≤ MAX_FILTER_SIZE ∧
    (MAX_FILTER_SIZE ≤ e.fileBytes.length →
      (e.fileBytes.take MAX_FILTER_SIZE).length = MAX_FILTER_SIZE) := by
  refine ⟨?_, ?_, List.length_take_le _ _, fun hlen => ?_⟩
  · rcases loader_run_cases argv environ fds e with
      ⟨hlt, _⟩ | ⟨_, hoF, _⟩ | ⟨_, _, hrT, _⟩ | ⟨_, _, _, hval, hR⟩ |
      ⟨_, _, _, h0, h8, _, hR⟩ | ⟨_, _, _, h0, h8, _, _, hR⟩ |
      ⟨_, _, _, h0, h8, _, _, _, hR⟩ | ⟨_, _, _, h0, h8, _, _, _, hR⟩
    · omega
    · rw [ho] at hoF; cases hoF
    · rw [hr] at hrT; cases hrT
    · rw [hR]
      constructor
      · intro hfalse
        simp [trRead, Event.isSetNNP] at hfalse
      · rintro ⟨hpos, h8⟩
        rcases hval with h | h
        · omega
        · exact absurd h8 h
    · rw [hR]
      exact ⟨fun _ => ⟨Nat.pos_of_ne_zero h0, h8⟩,
        fun _ => by simp [trNNP, trRead, Event.isSetNNP]⟩
    · rw [hR]
      exact ⟨fun _ => ⟨Nat.pos_of_ne_zero h0, h8⟩,
        fun _ => by simp [trInstall, trNNP, trRead, Event.isSetNNP]⟩
    · rw [hR]
      exact ⟨fun _ => ⟨Nat.pos_of_ne_zero h0, h8⟩,
        fun _ => by simp [trFull, trInstall, trNNP, trRead, Event.isSetNNP]⟩
    · rw [hR]
      exact ⟨fun _ => ⟨Nat.pos_of_ne_zero h0, h8⟩,
        fun _ => by simp [trFull, trInstall, trNNP, trRead, Event.isSetNNP]⟩
  · intro hval
    rcases loader_run_cases argv environ fds e with
      ⟨hlt, _⟩ | ⟨_, hoF, _⟩ | ⟨_, _, hrT, _⟩ | ⟨_, _, _, _, hR⟩ |
      ⟨_, _, _, h0, h8, _, hR⟩ | ⟨_, _, _, h0, h8, _, _, hR⟩ |
      ⟨_, _, _, h0, h8, _, _, _, hR⟩ | ⟨_, _, _, h0, h8, _, _, _, hR⟩
    · omega
    · rw [ho] at hoF; cases hoF
    · rw [hr] at hrT; cases hrT
    · rw [hR]
      exact ⟨rfl, by simp [trRead, Event.isInstall]⟩
    all_goals {
      exfalso
      rcases hval with h | h
      · exact h0 h
      · exact h h8 }
  · rw [List.length_take]
    exact min_eq_left hlen

/-- C1 amended witness: the all-success run on an 8-byte file satisfies
the hypotheses, proceeds past validation, and its read count obeys the
bounds. -/
theorem loader_validation_truncating_witness :
    (3 ≤ sampleArgv.length ∧ okEnv.openOk = true ∧
      okEnv.readErr = false) ∧
    (((applySeccompMain sampleArgv [] [] okEnv).2.any
        Event.isSetNNP = true ↔
      (0 < (okEnv.fileBytes.take MAX_FILTER_SIZE).length ∧
        (okEnv.fileBytes.take MAX_FILTER_SIZE).length % 8 = 0)) ∧
    (((okEnv.fileBytes.take MAX_FILTER_SIZE).length = 0 ∨
        (okEnv.fileBytes.take MAX_FILTER_SIZE).length % 8 ≠ 0) →
      ((applySeccompMain sampleArgv [] [] okEnv).1 = .exited 1 ∧
        (applySeccompMain sampleArgv [] [] okEnv).2.any
          Event.isInstall = false)) ∧
    (okEnv.fileBytes.take MAX_FILTER_SIZE).length ≤ MAX_FILTER_SIZE ∧
    (MAX_FILTER_SIZE ≤ okEnv.fileBytes.length →
      (okEnv.fileBytes.take MAX_FILTER_SIZE).length = MAX_FILTER_SIZE)) :=
  ⟨⟨by decide, rfl, rfl⟩,
    loader_validation_truncating sampleArgv [] [] okEnv (by decide) rfl rfl⟩

end SeccompSrc
